import Mathlib

/-
Verification development for the order-fulfillment core of the
perpetual-futures exchange (protocol-v2).

The repository snapshot contains the perp fulfillment engine only through
its test file (controller/orders/amm_jit_tests.rs) and the PnL settlement
controller (controller/pnl.rs).  The fulfillment engine itself
(controller/orders.rs) is therefore modelled from the specification,
calibrated against the behaviour recorded by the tests in
amm_jit_tests.rs; settle_pnl is embedded directly from controller/pnl.rs,
with its external helpers (bank map, margin engine, pool-balance update)
abstracted as inputs.
-/

namespace Drift

/-! ## Precision constants (math/constants.rs) -/

def BASE_PRECISION : Nat := 1000000000
def QUOTE_PRECISION : Nat := 1000000
def PRICE_PRECISION : Nat := 1000000
def PEG_PRECISION : Nat := 1000
def AMM_RESERVE_PRECISION : Nat := 1000000000
def ONE_BPS_DENOMINATOR : Nat := 10000

/-! ## Shared error taxonomy (error.rs, kinds named in spec section 7) -/

inductive ErrorCode where
  | InvalidOrderState
  | LiquidityExhausted
  | UserBankrupt
  | InsufficientCollateralForSettlingPNL
  | AMMNotUpdatedInSameSlot
  | DefaultError
  | UserMustSettleTheirOwnPositiveUnsettledPNL
  deriving DecidableEq, Repr

inductive PositionDirection where
  | Long
  | Short
  deriving DecidableEq, Repr

inductive OrderStatus where
  | Init
  | Open
  deriving DecidableEq, Repr

inductive OrderType where
  | Market
  | Limit
  deriving DecidableEq, Repr

/-! ## Data model (spec section 3, state/user.rs) -/

/-- Modelled from the spec: the Order record of state/user.rs (side, type,
requested and filled base quantity, limit price, auction parameters,
post-only flag, status).  Quantities are in base precision (1e9), prices in
price precision (1e6). -/
structure Order where
  status : OrderStatus := .Init
  order_type : OrderType := .Market
  direction : PositionDirection := .Long
  base_asset_amount : Nat := 0
  base_asset_amount_filled : Nat := 0
  price : Nat := 0
  post_only : Bool := false
  auction_start_price : Nat := 0
  auction_end_price : Nat := 0
  slot : Nat := 0
  auction_duration : Nat := 0
  deriving DecidableEq, Repr

/-- The default (closed) order record every fully-filled order is reset to. -/
def Order.default : Order := {}

/-- Modelled from the spec: the per-user per-market PerpPosition record
(signed base amount, quote cost-basis ledger, quote entry amount,
open-order count, reserved open-bid and open-ask quantities). -/
structure PerpPosition where
  base_asset_amount : Int := 0
  quote_asset_amount : Int := 0
  quote_entry_amount : Int := 0
  open_orders : Nat := 0
  open_bids : Int := 0
  open_asks : Int := 0
  deriving DecidableEq, Repr

/-- Modelled from the spec: the AMM state of one perp market (reserve
curve, spread-adjusted bid and ask reserves, peg multiplier, net user base
inventory, step size, JIT intensity, and the accumulated fee counters). -/
structure AMM where
  base_asset_reserve : Nat := 0
  quote_asset_reserve : Nat := 0
  bid_base_asset_reserve : Nat := 0
  bid_quote_asset_reserve : Nat := 0
  ask_base_asset_reserve : Nat := 0
  ask_quote_asset_reserve : Nat := 0
  sqrt_k : Nat := 0
  peg_multiplier : Nat := 0
  net_base_asset_amount : Int := 0
  max_base_asset_reserve : Nat := 0
  min_base_asset_reserve : Nat := 0
  base_asset_amount_step_size : Nat := 0
  amm_jit_intensity : Nat := 0
  total_fee : Int := 0
  total_mm_fee : Int := 0
  total_exchange_fee : Int := 0
  total_fee_minus_distributions : Int := 0
  net_revenue_since_last_funding : Int := 0
  deriving DecidableEq, Repr

/-- Fee tier parameters (state/state.rs FeeTier): taker fee, maker rebate
and filler reward as numerator over denominator.  The filler reward ratio
of the reference fee structure is one tenth of the taker fee: that value
reproduces every test-asserted total_fee of amm_jit_tests.rs exactly (see
the accounting notes on fulfill_order). -/
structure FeeStructure where
  fee_numerator : Nat := 0
  fee_denominator : Nat := 1
  maker_rebate_numerator : Nat := 0
  maker_rebate_denominator : Nat := 1
  filler_reward_numerator : Nat := 0
  filler_reward_denominator : Nat := 1
  deriving DecidableEq, Repr

/-- The mutable records one fulfillment call owns exclusively: the market
AMM, the taker position and order, the (single, pre-selected) maker
position and order, and the accumulated maker fee rebate statistic.  An
absent maker is represented by a maker order with zero remaining size. -/
structure FulfillState where
  amm : AMM
  taker : PerpPosition
  taker_order : Order
  maker_pos : PerpPosition
  maker_order : Order
  maker_rebate_total : Nat := 0
  deriving DecidableEq, Repr

/-- Result of one fulfillment call: the updated records plus the base
quantity contributed by each sub-fill source and the surplus recorded. -/
structure FillOutcome where
  state : FulfillState
  maker_filled : Nat
  jit_filled : Nat
  backstop_filled : Nat
  total_filled : Nat
  surplus_total : Int
  maker_leg_fee : Nat
  maker_leg_rebate : Nat
  filler_reward : Nat
  deriving DecidableEq, Repr

/-! ## AuctionPricer (spec section 4.1, math/auction.rs) -/

/-- Modelled from the spec: is_auction_complete of math/auction.rs.  True
when slot is at least the order slot plus the auction duration; duration
zero means immediately complete. -/
def is_auction_complete (order_slot auction_duration slot : Nat) : Bool :=
  order_slot + auction_duration ≤ slot

/-- Modelled from the spec: calculate_auction_price of math/auction.rs.
Linear interpolation of the taker limit price over elapsed slots, clamped
to the start and end prices; a Long order price rises from start to end, a
Short order price falls. -/
def calculate_auction_price (o : Order) (slot : Nat) : Nat :=
  if o.auction_duration = 0 then o.auction_end_price
  else
    let elapsed := min (slot - o.slot) o.auction_duration
    match o.direction with
    | .Long =>
        o.auction_start_price +
          (o.auction_end_price - o.auction_start_price) * elapsed / o.auction_duration
    | .Short =>
        o.auction_start_price -
          (o.auction_start_price - o.auction_end_price) * elapsed / o.auction_duration

/-! ## Quantization and quote-flow helpers (spec sections 4.2 and 4.5) -/

/-- Modelled from the spec: standardize_base_asset_amount, flooring a base
quantity to a whole number of steps. -/
def standardize_base_asset_amount (amount step : Nat) : Nat :=
  if step = 0 then amount else amount - amount % step

/-- Quote flow (quote precision) of trading a base quantity at a given
price: price times base over the base precision. -/
def quote_asset_amount_at (price base_amount : Nat) : Nat :=
  price * base_amount / BASE_PRECISION

/-- Convert a quote-reserve delta of the AMM curve into quote-precision
units through the peg multiplier. -/
def reserve_to_quote (peg reserve_delta : Nat) : Nat :=
  reserve_delta * peg / PEG_PRECISION / (AMM_RESERVE_PRECISION / QUOTE_PRECISION)

/-! ## AMM reserve curve (spec section 4.2) -/

/-- Modelled from the spec: one constant-product swap of base quantity q
against the spread reserves for the taker side (ask reserves when the
taker buys, bid reserves when the taker sells), preserving the product
invariant, enforcing the min and max reserve bounds, and returning the
exact quote quantity owed. -/
def swap_base_asset (amm : AMM) (dir : PositionDirection) (q : Nat) :
    Except ErrorCode (AMM × Nat) :=
  match dir with
  | .Long =>
      if amm.ask_base_asset_reserve ≤ q ∨ amm.base_asset_reserve ≤ q then
        .error .LiquidityExhausted
      else
        let new_ask_base := amm.ask_base_asset_reserve - q
        if new_ask_base < amm.min_base_asset_reserve then .error .LiquidityExhausted
        else
          let k := amm.ask_base_asset_reserve * amm.ask_quote_asset_reserve
          let new_ask_quote := k / new_ask_base
          let quote_owed := reserve_to_quote amm.peg_multiplier (new_ask_quote - amm.ask_quote_asset_reserve)
          let km := amm.base_asset_reserve * amm.quote_asset_reserve
          .ok ({ amm with
                  ask_base_asset_reserve := new_ask_base,
                  ask_quote_asset_reserve := new_ask_quote,
                  base_asset_reserve := amm.base_asset_reserve - q,
                  quote_asset_reserve := km / (amm.base_asset_reserve - q) },
               quote_owed)
  | .Short =>
      let new_bid_base := amm.bid_base_asset_reserve + q
      if amm.max_base_asset_reserve < new_bid_base then .error .LiquidityExhausted
      else
        let k := amm.bid_base_asset_reserve * amm.bid_quote_asset_reserve
        let new_bid_quote := k / new_bid_base
        let quote_owed := reserve_to_quote amm.peg_multiplier (amm.bid_quote_asset_reserve - new_bid_quote)
        let km := amm.base_asset_reserve * amm.quote_asset_reserve
        .ok ({ amm with
                bid_base_asset_reserve := new_bid_base,
                bid_quote_asset_reserve := new_bid_quote,
                base_asset_reserve := amm.base_asset_reserve + q,
                quote_asset_reserve := km / (amm.base_asset_reserve + q) },
             quote_owed)

/-- Swap that treats a zero quantity as a no-op (no reserve touch, no
bound check), as a zero-size sub-fill is simply skipped. -/
def swap_base_asset_opt (amm : AMM) (dir : PositionDirection) (q : Nat) :
    Except ErrorCode (AMM × Nat) :=
  if q = 0 then .ok (amm, 0) else swap_base_asset amm dir q

/-! ## JIT controller (spec section 4.3) -/

/-- Modelled from the spec: the AMM participates just-in-time only when
the taker fill direction reduces the magnitude of net_base_asset_amount:
the taker buys while users are net short, or sells while users are net
long. -/
def amm_wants_to_make (dir : PositionDirection) (net : Int) : Bool :=
  match dir with
  | .Long => net < 0
  | .Short => 0 < net

/-- Modelled from the spec: the JIT sizing rule.  The spec leaves the
closed form open and fixes it through the reference tests: the AMM takes
half of the maker-matched quantity, capped by the absolute net base
inventory, scaled by amm_jit_intensity (0 to 100) and floored to whole
steps. -/
def calculate_amm_jit_amount (match_amount : Nat) (amm : AMM) : Nat :=
  if amm.amm_jit_intensity = 0 then 0
  else
    standardize_base_asset_amount
      (min (match_amount / 2) amm.net_base_asset_amount.natAbs * amm.amm_jit_intensity / 100)
      amm.base_asset_amount_step_size

/-! ## Fee and surplus engine (spec section 4.5) -/

/-- Surplus of an AMM-curve sub-fill: realized quote flow minus the quote
flow at the reference price, signed so that a positive value is AMM
profit (the AMM sells above or buys below the reference). -/
def amm_quote_surplus (dir : PositionDirection) (quote_flow fair_flow : Nat) : Int :=
  match dir with
  | .Long => (quote_flow : Int) - (fair_flow : Int)
  | .Short => (fair_flow : Int) - (quote_flow : Int)

/-- Surplus of a JIT sub-fill executed at price p for base quantity q,
measured against the reference oracle price. -/
def jit_surplus (dir : PositionDirection) (p q oracle_price : Nat) : Int :=
  amm_quote_surplus dir (quote_asset_amount_at p q) (quote_asset_amount_at oracle_price q)

/-! ## Position and market ledger (spec sections 3 and 4.4) -/

/-- Apply one sub-fill of base quantity q at quote flow quote with taker
fee to the taker position: the base moves with the taker side, the entry
ledger moves by the quote flow, the cost-basis ledger additionally pays
the fee, and the reserved open quantity is released. -/
def apply_taker_fill (pos : PerpPosition) (dir : PositionDirection)
    (q quote fee : Nat) : PerpPosition :=
  match dir with
  | .Long =>
      { pos with
        base_asset_amount := pos.base_asset_amount + q,
        quote_entry_amount := pos.quote_entry_amount - quote,
        quote_asset_amount := pos.quote_asset_amount - quote - fee,
        open_bids := pos.open_bids - q }
  | .Short =>
      { pos with
        base_asset_amount := pos.base_asset_amount - q,
        quote_entry_amount := pos.quote_entry_amount + quote,
        quote_asset_amount := pos.quote_asset_amount + quote - fee,
        open_asks := pos.open_asks + q }

/-- Apply the maker side of a maker-matched sub-fill: the maker takes the
opposite side of the taker and is credited the maker rebate on top of the
quote flow. -/
def apply_maker_fill (pos : PerpPosition) (taker_dir : PositionDirection)
    (q quote rebate : Nat) : PerpPosition :=
  match taker_dir with
  | .Long =>
      { pos with
        base_asset_amount := pos.base_asset_amount - q,
        quote_entry_amount := pos.quote_entry_amount + quote,
        quote_asset_amount := pos.quote_asset_amount + quote + rebate,
        open_asks := pos.open_asks + q }
  | .Short =>
      { pos with
        base_asset_amount := pos.base_asset_amount + q,
        quote_entry_amount := pos.quote_entry_amount - quote,
        quote_asset_amount := pos.quote_asset_amount - quote + rebate,
        open_bids := pos.open_bids - q }

/-- Net user base inventory after the taker fills base quantity q against
the AMM curve (maker-matched quantity leaves the net unchanged since the
two user deltas cancel). -/
def net_after_amm_fill (net : Int) (dir : PositionDirection) (q : Nat) : Int :=
  match dir with
  | .Long => net + q
  | .Short => net - q

/-- Record an order fill on an order record. -/
def fill_order_amount (o : Order) (q : Nat) : Order :=
  { o with base_asset_amount_filled := o.base_asset_amount_filled + q }

/-- Settle step for the taker order: record the filled quantity and, once
the remaining quantity reaches zero, reset the order to the default closed
state and decrement the open-order count (invariant of spec section 3). -/
def finalize_taker (pos : PerpPosition) (o : Order) (q : Nat) : PerpPosition × Order :=
  let oa := fill_order_amount o q
  if oa.base_asset_amount - oa.base_asset_amount_filled = 0 then
    ({ pos with open_orders := pos.open_orders - 1 }, Order.default)
  else (pos, oa)

/-- Settle step for the maker order: record the filled quantity and, when
a nonzero fill exhausts the order, reset it to the default closed state
and decrement the open-order count. -/
def finalize_maker (pos : PerpPosition) (o : Order) (q : Nat) : PerpPosition × Order :=
  let oa := fill_order_amount o q
  if 0 < q ∧ oa.base_asset_amount - oa.base_asset_amount_filled = 0 then
    ({ pos with open_orders := pos.open_orders - 1 }, Order.default)
  else (pos, oa)

/-! ## Matching engine and fulfillment orchestrator (spec section 4.4) -/

/-- Modelled from the spec: the maker-match quantity of step MakerMatch.
The maker order must rest on the opposite side and its posted price must
cross the taker current auction price; the matched quantity is the minimum
of the two remaining sizes, floored to whole steps. -/
def maker_match_amount (st : FulfillState) (auction_price : Nat) : Nat :=
  let mo := st.maker_order
  let taker_remaining := st.taker_order.base_asset_amount - st.taker_order.base_asset_amount_filled
  let maker_remaining := mo.base_asset_amount - mo.base_asset_amount_filled
  if mo.direction = st.taker_order.direction then 0
  else
    let crosses : Bool :=
      match st.taker_order.direction with
      | .Long => decide (mo.price ≤ auction_price)
      | .Short => decide (auction_price ≤ mo.price)
    if crosses then
      standardize_base_asset_amount (min taker_remaining maker_remaining)
        st.amm.base_asset_amount_step_size
    else 0

/-- Modelled from the spec: fulfill_order of controller/orders.rs
(the matching engine / fulfillment orchestrator).  The call proceeds
Start, MakerMatch, JitFill, backstop, Settle; any constraint failure
aborts the whole call with no partial side effect.  The maker-matched
quantity fills at the maker posted price; the JIT quantity (carved out of
the matched quantity) executes at the taker current auction price, its
surplus measured against the oracle price; once the auction is complete
the remainder fills against the AMM spread curve at the curve price.  The
fee-counter updates follow the counters asserted by amm_jit_tests.rs (see
the inline accounting notes): total_fee also absorbs the maker-leg net fee
and pays the filler rewards, so it does not equal total_exchange_fee plus
total_mm_fee in general. -/
def fulfill_order (st : FulfillState) (slot oracle_price : Nat) (fs : FeeStructure) :
    Except ErrorCode FillOutcome :=
  let o := st.taker_order
  let remaining := o.base_asset_amount - o.base_asset_amount_filled
  if remaining = 0 then .error .InvalidOrderState
  else
    let p := calculate_auction_price o slot
    let match_amount := maker_match_amount st p
    let jit_amount :=
      if amm_wants_to_make o.direction st.amm.net_base_asset_amount then
        min (calculate_amm_jit_amount match_amount st.amm) match_amount
      else 0
    let maker_amount := match_amount - jit_amount
    let maker_quote := quote_asset_amount_at st.maker_order.price maker_amount
    let taker_fee_m := maker_quote * fs.fee_numerator / fs.fee_denominator
    let rebate := maker_quote * fs.maker_rebate_numerator / fs.maker_rebate_denominator
    -- JIT leg: executed at the auction price, surplus against the oracle
    let jit_quote := quote_asset_amount_at p jit_amount
    let sj := jit_surplus o.direction p jit_amount oracle_price
    let fee_j := jit_quote * fs.fee_numerator / fs.fee_denominator
    match swap_base_asset_opt st.amm o.direction jit_amount with
    | .error e => .error e
    | .ok (amm_a, _) =>
      -- backstop leg: only once the auction is complete, at the curve price
      let remainder := remaining - match_amount
      let back_amount :=
        if is_auction_complete o.slot o.auction_duration slot then
          standardize_base_asset_amount remainder st.amm.base_asset_amount_step_size
        else 0
      match swap_base_asset_opt amm_a o.direction back_amount with
      | .error e => .error e
      | .ok (amm_b, back_quote) =>
        let sb := amm_quote_surplus o.direction back_quote (quote_asset_amount_at oracle_price back_amount)
        let fee_b := back_quote * fs.fee_numerator / fs.fee_denominator
        -- Fee counters, calibrated against the counters asserted by
        -- amm_jit_tests.rs: the maker-matched leg contributes its taker
        -- fee net of the maker rebate and the filler reward to total_fee
        -- only; each AMM leg contributes its taker fee to
        -- total_exchange_fee and its fee plus surplus net of the filler
        -- reward to total_fee; the surplus goes to total_mm_fee.  With the
        -- one-tenth filler reward this reproduces all four asserted
        -- triples, e.g. (25000-15000-2500)+(20000-16543210-2000) =
        -- -16517710 with total_exchange_fee 20000 and total_mm_fee
        -- -16543210, so total_fee is not total_exchange_fee plus
        -- total_mm_fee.  The swaps touch only the reserves, so the
        -- counters accumulate from the pre-call values.
        let filler_m := taker_fee_m * fs.filler_reward_numerator / fs.filler_reward_denominator
        let filler_j := fee_j * fs.filler_reward_numerator / fs.filler_reward_denominator
        let filler_b := fee_b * fs.filler_reward_numerator / fs.filler_reward_denominator
        let exchange_fee_delta : Int := ((fee_j + fee_b : Nat) : Int)
        let surplus := sj + sb
        let total_fee_delta : Int :=
          ((taker_fee_m : Int) - (rebate : Int) - (filler_m : Int)) +
            (((fee_j + fee_b : Nat) : Int) + surplus - (filler_j : Int) - (filler_b : Int))
        let amm_final : AMM :=
          { amm_b with
            net_base_asset_amount :=
              net_after_amm_fill st.amm.net_base_asset_amount o.direction (jit_amount + back_amount),
            total_exchange_fee := st.amm.total_exchange_fee + exchange_fee_delta,
            total_mm_fee := st.amm.total_mm_fee + surplus,
            total_fee := st.amm.total_fee + total_fee_delta,
            total_fee_minus_distributions := st.amm.total_fee_minus_distributions + total_fee_delta,
            net_revenue_since_last_funding := st.amm.net_revenue_since_last_funding + total_fee_delta }
        let taker_b :=
          apply_taker_fill
            (apply_taker_fill
              (apply_taker_fill st.taker o.direction maker_amount maker_quote taker_fee_m)
              o.direction jit_amount jit_quote fee_j)
            o.direction back_amount back_quote fee_b
        let maker_pos_a := apply_maker_fill st.maker_pos o.direction maker_amount maker_quote rebate
        let fm := finalize_maker maker_pos_a st.maker_order maker_amount
        let total := maker_amount + jit_amount + back_amount
        let ft := finalize_taker taker_b o total
        .ok { state :=
                { amm := amm_final,
                  taker := ft.1,
                  taker_order := ft.2,
                  maker_pos := fm.1,
                  maker_order := fm.2,
                  maker_rebate_total := st.maker_rebate_total + rebate },
              maker_filled := maker_amount,
              jit_filled := jit_amount,
              backstop_filled := back_amount,
              total_filled := total,
              surplus_total := surplus,
              maker_leg_fee := taker_fee_m,
              maker_leg_rebate := rebate,
              filler_reward := filler_m + filler_j + filler_b }

/-- The state observable by the caller after a fulfillment call: the new
state on success, the unchanged input state on any error (spec sections 5
and 7: one call fully applies or fully fails, no partial commit). -/
def apply_fulfill (st : FulfillState) (slot oracle_price : Nat) (fs : FeeStructure) :
    FulfillState :=
  match fulfill_order st slot oracle_price fs with
  | .ok o => o.state
  | .error _ => st

/-! ## Result projections (total accessors over the Except result) -/

def res_is_ok (r : Except ErrorCode FillOutcome) : Bool :=
  match r with
  | .ok _ => true
  | .error _ => false

def res_maker_filled (r : Except ErrorCode FillOutcome) : Nat :=
  match r with
  | .ok o => o.maker_filled
  | .error _ => 0

def res_jit_filled (r : Except ErrorCode FillOutcome) : Nat :=
  match r with
  | .ok o => o.jit_filled
  | .error _ => 0

def res_backstop_filled (r : Except ErrorCode FillOutcome) : Nat :=
  match r with
  | .ok o => o.backstop_filled
  | .error _ => 0

def res_total_filled (r : Except ErrorCode FillOutcome) : Nat :=
  match r with
  | .ok o => o.total_filled
  | .error _ => 0

def res_surplus (r : Except ErrorCode FillOutcome) : Int :=
  match r with
  | .ok o => o.surplus_total
  | .error _ => 0

def res_net (r : Except ErrorCode FillOutcome) : Int :=
  match r with
  | .ok o => o.state.amm.net_base_asset_amount
  | .error _ => 0

/-! ## PnL settlement (controller/pnl.rs settle_pnl)

The control flow below is embedded directly from settle_pnl in
controller/pnl.rs.  Its external helpers (bank map interest accrual,
settle_lp, settle_funding_payment, the maintenance-margin engine,
get_unsettled_pnl, update_pool_balances) live outside the provided
sources, so their results enter as abstract inputs in SettlePnlEnv. -/

inductive MarketStatus where
  | Initialized
  | Settlement
  deriving DecidableEq, Repr

/-- The user record fields settle_pnl reads and writes: bankruptcy flag,
recorded authority key, quote-asset bank balance, and the per-market
position ledger fields touched by the settlement step. -/
structure PnlUser where
  bankrupt : Bool := false
  authority : Nat := 0
  bank_balance : Int := 0
  quote_asset_amount : Int := 0
  settled_pnl : Int := 0
  deriving DecidableEq, Repr

/-- The market fields settle_pnl reads: the AMM staleness bookkeeping and
the market status. -/
structure PnlMarket where
  amm_last_update_slot : Nat := 0
  amm_last_oracle_valid : Bool := false
  curve_update_intensity : Nat := 0
  status : MarketStatus := .Initialized
  deriving DecidableEq, Repr

/-- Results of the external collaborators of settle_pnl, provided as
inputs: the oracle map slot, the position delta applied by
settle_funding_payment, the unsettled pnl of the position at the oracle
price, and the pool-capped settlement amount update_pool_balances
returns for a given unsettled pnl. -/
structure SettlePnlEnv where
  meets_maintenance_margin : Bool
  oracle_map_slot : Nat
  funding_payment_delta : Int
  user_unsettled_pnl : Int
  update_pool_balances_result : Int → Int

/-- Embedded from controller/pnl.rs settle_pnl: validate the user is not
bankrupt, settle funding, require maintenance margin, require the AMM to
have been updated in the same slot with a valid oracle reading unless the
curve-update intensity is zero, require an initialized market, then settle
the pool-capped pnl amount into the user bank balance - with settlement of
a positive amount restricted to the position owner.  An error return
commits nothing (the surrounding transaction is rolled back). -/
def settle_pnl (user : PnlUser) (authority : Nat) (market : PnlMarket)
    (env : SettlePnlEnv) : Except ErrorCode PnlUser :=
  if user.bankrupt then .error .UserBankrupt
  else
    -- update_bank_cumulative_interest and settle_lp touch no modelled field
    let user1 := { user with quote_asset_amount := user.quote_asset_amount + env.funding_payment_delta }
    if env.meets_maintenance_margin = false then .error .InsufficientCollateralForSettlingPNL
    else if ¬ ((env.oracle_map_slot = market.amm_last_update_slot ∧
                market.amm_last_oracle_valid = true) ∨
               market.curve_update_intensity = 0) then
      .error .AMMNotUpdatedInSameSlot
    else if market.status ≠ MarketStatus.Initialized then .error .DefaultError
    else
      let pnl_to_settle_with_user := env.update_pool_balances_result env.user_unsettled_pnl
      if env.user_unsettled_pnl = 0 then .ok user1
      else if pnl_to_settle_with_user = 0 then .ok user1
      else if ¬ (pnl_to_settle_with_user < 0 ∨ user1.authority = authority) then
        .error .UserMustSettleTheirOwnPositiveUnsettledPNL
      else
        .ok { user1 with
              bank_balance := user1.bank_balance + pnl_to_settle_with_user,
              quote_asset_amount := user1.quote_asset_amount - pnl_to_settle_with_user,
              settled_pnl := user1.settled_pnl + pnl_to_settle_with_user }

/-- The user record observable by the caller after settle_pnl: the updated
record on success, the unchanged input record on any error (the anchor
transaction reverts on error, so nothing is committed). -/
def apply_settle_pnl (user : PnlUser) (authority : Nat) (market : PnlMarket)
    (env : SettlePnlEnv) : PnlUser :=
  match settle_pnl user authority market env with
  | .ok u => u
  | .error _ => user

def pnl_res_is_ok (r : Except ErrorCode PnlUser) : Bool :=
  match r with
  | .ok _ => true
  | .error _ => false

def res_taker_base (r : Except ErrorCode FillOutcome) : Int :=
  match r with
  | .ok o => o.state.taker.base_asset_amount
  | .error _ => 0

def res_maker_base (r : Except ErrorCode FillOutcome) : Int :=
  match r with
  | .ok o => o.state.maker_pos.base_asset_amount
  | .error _ => 0

def res_maker_qea (r : Except ErrorCode FillOutcome) : Int :=
  match r with
  | .ok o => o.state.maker_pos.quote_entry_amount
  | .error _ => 0

def res_maker_rebate (r : Except ErrorCode FillOutcome) : Nat :=
  match r with
  | .ok o => o.state.maker_rebate_total
  | .error _ => 0

def res_maker_leg_fee (r : Except ErrorCode FillOutcome) : Nat :=
  match r with
  | .ok o => o.maker_leg_fee
  | .error _ => 0

def res_maker_leg_rebate (r : Except ErrorCode FillOutcome) : Nat :=
  match r with
  | .ok o => o.maker_leg_rebate
  | .error _ => 0

def res_filler_reward (r : Except ErrorCode FillOutcome) : Nat :=
  match r with
  | .ok o => o.filler_reward
  | .error _ => 0

/-- Extract the outcome of a successful call, with a fallback record for
the error case. -/
def outcome_or (r : Except ErrorCode FillOutcome) (d : FillOutcome) : FillOutcome :=
  match r with
  | .ok o => o
  | .error _ => d

/-- A later fill in a fill sequence runs on the state a previous call
produced, with a freshly posted maker resting order (the full_long and
full_short loop tests post a new maker at the current auction price each
slot). -/
def with_fresh_maker (st : FulfillState) (mp : PerpPosition) (mo : Order) : FulfillState :=
  { st with maker_pos := mp, maker_order := mo }

/-! ## Concrete reference scenarios (amm_jit_tests.rs setups)

The fee schedule and market setups below are the ones the tests of
controller/orders/amm_jit_tests.rs build: taker fee 5 bps, maker rebate
3 bps, reserves of 100 units with a 1 percent spread on both sides, peg
price 100, oracle price 100. -/

def test_fee_structure : FeeStructure :=
  { fee_numerator := 5, fee_denominator := ONE_BPS_DENOMINATOR,
    maker_rebate_numerator := 3, maker_rebate_denominator := ONE_BPS_DENOMINATOR,
    filler_reward_numerator := 1, filler_reward_denominator := 10 }

/-- The reference AMM of the tests, parametrized by the net user base
inventory, the step size and the reserve bound. -/
def reference_amm (net : Int) (step max_reserve : Nat) : AMM :=
  { base_asset_reserve := 100 * AMM_RESERVE_PRECISION,
    quote_asset_reserve := 100 * AMM_RESERVE_PRECISION,
    bid_base_asset_reserve := 101 * AMM_RESERVE_PRECISION,
    bid_quote_asset_reserve := 99 * AMM_RESERVE_PRECISION,
    ask_base_asset_reserve := 99 * AMM_RESERVE_PRECISION,
    ask_quote_asset_reserve := 101 * AMM_RESERVE_PRECISION,
    sqrt_k := 100 * AMM_RESERVE_PRECISION,
    peg_multiplier := 100 * PEG_PRECISION,
    net_base_asset_amount := net,
    max_base_asset_reserve := max_reserve,
    min_base_asset_reserve := 0,
    base_asset_amount_step_size := step,
    amm_jit_intensity := 100 }

/-- Scenario of claim C5 (test no_fulfill_with_amm_jit_taker_long): users
net long half a unit, taker market Long one unit with an instantly
complete auction ending at 100, post-only Short maker of half a unit at
100. -/
def c5_state : FulfillState :=
  { amm := reference_amm 500000000 1000 (10 ^ 30),
    taker := { open_orders := 1, open_bids := 1000000000 },
    taker_order :=
      { status := .Open, order_type := .Market, direction := .Long,
        base_asset_amount := 1000000000, auction_start_price := 0,
        auction_end_price := 100 * PRICE_PRECISION, slot := 0, auction_duration := 0 },
    maker_pos := { open_orders := 1, open_asks := -(500000000 : Int) },
    maker_order :=
      { status := .Open, order_type := .Limit, direction := .Short, post_only := true,
        base_asset_amount := 500000000, price := 100 * PRICE_PRECISION } }

def c5_result : Except ErrorCode FillOutcome :=
  fulfill_order c5_state 0 (100 * PRICE_PRECISION) test_fee_structure

/-- Scenario of claim C4 (test fulfill_with_amm_jit_taker_long with the
larger step size): users net short half a unit, taker market Long one
unit, post-only Short maker of half a unit at 100, step size one
hundredth of a unit. -/
def c4_state : FulfillState :=
  { amm := reference_amm (-(500000000 : Int)) 10000000 (10 ^ 30),
    taker := { open_orders := 1, open_bids := 1000000000 },
    taker_order :=
      { status := .Open, order_type := .Market, direction := .Long,
        base_asset_amount := 1000000000, auction_start_price := 0,
        auction_end_price := 100 * PRICE_PRECISION, slot := 0, auction_duration := 0 },
    maker_pos := { open_orders := 1, open_asks := -(500000000 : Int) },
    maker_order :=
      { status := .Open, order_type := .Limit, direction := .Short, post_only := true,
        base_asset_amount := 500000000, price := 100 * PRICE_PRECISION } }

def c4_result : Except ErrorCode FillOutcome :=
  fulfill_order c4_state 0 (100 * PRICE_PRECISION) test_fee_structure

/-- Witness scenario of claim C1: users net long, taker Long (worsening
the imbalance), as in test no_fulfill_with_amm_jit_taker_long with the
larger step size. -/
def c1_state : FulfillState :=
  { amm := reference_amm 500000000 10000000 (10 ^ 30),
    taker := { open_orders := 1, open_bids := 1000000000 },
    taker_order :=
      { status := .Open, order_type := .Market, direction := .Long,
        base_asset_amount := 1000000000, auction_start_price := 0,
        auction_end_price := 100 * PRICE_PRECISION, slot := 0, auction_duration := 0 },
    maker_pos := { open_orders := 1, open_asks := -(500000000 : Int) },
    maker_order :=
      { status := .Open, order_type := .Limit, direction := .Short, post_only := true,
        base_asset_amount := 500000000, price := 100 * PRICE_PRECISION } }

/-- Witness scenario of claim C2: the C4 market with a fresh maker and
zeroed fee counters. -/
def c2_state : FulfillState :=
  { amm := reference_amm (-(500000000 : Int)) 10000000 (10 ^ 30),
    taker := { open_orders := 1, open_bids := 2000000000 },
    taker_order :=
      { status := .Open, order_type := .Market, direction := .Long,
        base_asset_amount := 2000000000, auction_start_price := 0,
        auction_end_price := 100 * PRICE_PRECISION, slot := 0, auction_duration := 0 },
    maker_pos := { open_orders := 1, open_asks := -(2000000000 : Int) },
    maker_order :=
      { status := .Open, order_type := .Limit, direction := .Short, post_only := true,
        base_asset_amount := 2000000000, price := 100 * PRICE_PRECISION } }

/-- Witness scenario of claim C6: a taker order with zero remaining base
quantity. -/
def c6_state : FulfillState :=
  { amm := reference_amm 0 1000 (10 ^ 30),
    taker := { open_orders := 1 },
    taker_order :=
      { status := .Open, order_type := .Market, direction := .Long,
        base_asset_amount := 500000000, base_asset_amount_filled := 500000000,
        auction_end_price := 100 * PRICE_PRECISION },
    maker_pos := {},
    maker_order := {} }

/-- Witness scenario of claim C7: the maker match would succeed but the
backstop swap breaches the maximum base reserve bound, so the whole call
aborts. -/
def c7_state : FulfillState :=
  { amm := reference_amm 0 1000 (101 * AMM_RESERVE_PRECISION + 1000),
    taker := { open_orders := 1, open_asks := -(1000000000 : Int) },
    taker_order :=
      { status := .Open, order_type := .Market, direction := .Short,
        base_asset_amount := 1000000000, auction_start_price := 100 * PRICE_PRECISION,
        auction_end_price := 100 * PRICE_PRECISION, slot := 0, auction_duration := 0 },
    maker_pos := { open_orders := 1, open_bids := (500000000 : Int) },
    maker_order :=
      { status := .Open, order_type := .Limit, direction := .Long, post_only := true,
        base_asset_amount := 500000000, price := 100 * PRICE_PRECISION } }

/-- Witness scenario of claim C8: a maker-only full fill (net flat, so no
JIT and no backstop remainder), after which the taker order must be reset. -/
def c8_state : FulfillState :=
  { amm := reference_amm 0 1000 (10 ^ 30),
    taker := { open_orders := 1, open_bids := 500000000 },
    taker_order :=
      { status := .Open, order_type := .Market, direction := .Long,
        base_asset_amount := 500000000, auction_start_price := 0,
        auction_end_price := 100 * PRICE_PRECISION, slot := 0, auction_duration := 0 },
    maker_pos := { open_orders := 1, open_asks := -(500000000 : Int) },
    maker_order :=
      { status := .Open, order_type := .Limit, direction := .Short, post_only := true,
        base_asset_amount := 500000000, price := 100 * PRICE_PRECISION } }

/-- Witness order of claim C3: the taker order of test
fulfill_with_amm_jit_full_long. -/
def c3_order : Order :=
  { status := .Open, order_type := .Market, direction := .Long,
    base_asset_amount := 100 * BASE_PRECISION,
    auction_start_price := 95062500, auction_end_price := 132154089,
    slot := 0, auction_duration := 50 }

/-- Witness inputs of claim C9: the oracle map slot differs from the AMM
last update slot while the curve-update intensity is nonzero. -/
def c9_user : PnlUser := { authority := 7 }

def c9_market : PnlMarket :=
  { amm_last_update_slot := 4, amm_last_oracle_valid := true,
    curve_update_intensity := 1, status := .Initialized }

def c9_env : SettlePnlEnv :=
  { meets_maintenance_margin := true, oracle_map_slot := 5,
    funding_payment_delta := 0, user_unsettled_pnl := 3,
    update_pool_balances_result := fun x => x }

/-- Witness inputs of claim C10: positive settlement amount requested by a
caller whose key differs from the position owner. -/
def c10_user : PnlUser := { authority := 1 }

def c10_market : PnlMarket :=
  { amm_last_update_slot := 5, amm_last_oracle_valid := true,
    curve_update_intensity := 1, status := .Initialized }

def c10_env : SettlePnlEnv :=
  { meets_maintenance_margin := true, oracle_map_slot := 5,
    funding_payment_delta := 0, user_unsettled_pnl := 7,
    update_pool_balances_result := fun x => x }

/-- Witness AMM of claim C3: the full-long loop market (reserves of 5
units, one percent spread, peg 100, users net short 100 units, step
1000). -/
def c3_amm : AMM :=
  { base_asset_reserve := 5 * AMM_RESERVE_PRECISION,
    quote_asset_reserve := 5 * AMM_RESERVE_PRECISION,
    bid_base_asset_reserve := 5050000000,
    bid_quote_asset_reserve := 4950000000,
    ask_base_asset_reserve := 4950000000,
    ask_quote_asset_reserve := 5050000000,
    sqrt_k := 5 * AMM_RESERVE_PRECISION,
    peg_multiplier := 100 * PEG_PRECISION,
    net_base_asset_amount := -(100000000000 : Int),
    max_base_asset_reserve := 10 ^ 30,
    min_base_asset_reserve := 0,
    base_asset_amount_step_size := 1000,
    amm_jit_intensity := 100 }

/-- Witness state of claim C3 at slot 0: the loop taker and the maker the
loop posts at the slot-0 auction price for four steps. -/
def c3_state1 : FulfillState :=
  { amm := c3_amm,
    taker := { open_orders := 1, open_bids := 100000000000 },
    taker_order := c3_order,
    maker_pos := { open_orders := 1, open_asks := -(4000 : Int) },
    maker_order :=
      { status := .Open, order_type := .Limit, direction := .Short, post_only := true,
        base_asset_amount := 4000, price := 95062500 } }

/-- Fallback outcome record for outcome extraction. -/
def c3_junk : FillOutcome :=
  { state := c3_state1, maker_filled := 0, jit_filled := 0, backstop_filled := 0,
    total_filled := 0, surplus_total := 0, maker_leg_fee := 0, maker_leg_rebate := 0,
    filler_reward := 0 }

def c3_o1 : FillOutcome :=
  outcome_or (fulfill_order c3_state1 0 (100 * PRICE_PRECISION) test_fee_structure) c3_junk

/-- The fresh maker the loop posts at the slot-1 auction price. -/
def c3_maker2_pos : PerpPosition := { open_orders := 1, open_asks := -(4000 : Int) }

def c3_maker2_ord : Order :=
  { status := .Open, order_type := .Limit, direction := .Short, post_only := true,
    base_asset_amount := 4000, price := 95804331 }

def c3_o2 : FillOutcome :=
  outcome_or
    (fulfill_order (with_fresh_maker c3_o1.state c3_maker2_pos c3_maker2_ord) 1
      (100 * PRICE_PRECISION) test_fee_structure) c3_junk

end Drift

namespace Drift

/-! ## Claim theorems -/

theorem finalize_taker_of_remaining_zero (pos : PerpPosition) (o : Order) (q : Nat)
    (h : (finalize_taker pos o q).2.base_asset_amount -
        (finalize_taker pos o q).2.base_asset_amount_filled = 0) :
    (finalize_taker pos o q).2 = Order.default ∧
    (finalize_taker pos o q).1.open_orders = pos.open_orders - 1 ∧
    (finalize_taker pos o q).1.open_bids = pos.open_bids ∧
    (finalize_taker pos o q).1.open_asks = pos.open_asks := by
  unfold finalize_taker at h ⊢
  by_cases h0 : (fill_order_amount o q).base_asset_amount -
      (fill_order_amount o q).base_asset_amount_filled = 0
  · simp [h0]
  · simp only [if_neg h0] at h
    exact absurd h h0

theorem finalize_maker_quote_fields (pos : PerpPosition) (o : Order) (q : Nat) :
    (finalize_maker pos o q).1.quote_asset_amount = pos.quote_asset_amount ∧
    (finalize_maker pos o q).1.quote_entry_amount = pos.quote_entry_amount := by
  unfold finalize_maker
  by_cases h0 : 0 < q ∧ (fill_order_amount o q).base_asset_amount -
      (fill_order_amount o q).base_asset_amount_filled = 0
  · simp [h0]
  · simp [h0]

theorem apply_taker_fill_open_orders (pos : PerpPosition) (dir : PositionDirection)
    (q quote fee : Nat) : (apply_taker_fill pos dir q quote fee).open_orders = pos.open_orders := by
  cases dir <;> rfl

theorem apply_taker_fill_long_open_bids (pos : PerpPosition) (q quote fee : Nat) :
    (apply_taker_fill pos .Long q quote fee).open_bids = pos.open_bids - q := rfl

theorem apply_taker_fill_short_open_asks (pos : PerpPosition) (q quote fee : Nat) :
    (apply_taker_fill pos .Short q quote fee).open_asks = pos.open_asks + q := rfl


/-- Claim C6: calling the matching engine with a taker order whose
remaining base size is already 0 fails with InvalidOrderState and performs
no state mutation; it is never a silent zero-fill success. -/
theorem c6_zero_remaining_is_rejected (st : FulfillState) (slot oracle_price : Nat)
    (fs : FeeStructure)
    (hrem : st.taker_order.base_asset_amount - st.taker_order.base_asset_amount_filled = 0) :
    fulfill_order st slot oracle_price fs = .error .InvalidOrderState ∧
    apply_fulfill st slot oracle_price fs = st := by
  have h : fulfill_order st slot oracle_price fs = .error .InvalidOrderState := by
    unfold fulfill_order
    simp [hrem]
  exact ⟨h, by unfold apply_fulfill; rw [h]⟩

/-- Claim C6 witness: a concrete fully-filled order is rejected with
InvalidOrderState and the state is untouched. -/
theorem c6_zero_remaining_is_rejected_witness :
    fulfill_order c6_state 0 (100 * PRICE_PRECISION) test_fee_structure =
      .error .InvalidOrderState ∧
    apply_fulfill c6_state 0 (100 * PRICE_PRECISION) test_fee_structure = c6_state :=
  c6_zero_remaining_is_rejected c6_state 0 (100 * PRICE_PRECISION) test_fee_structure (by decide)

/-- Claim C7: every error raised during a fulfillment call aborts the
whole call with no partial state mutation: on an error return the state
observable by the caller is exactly the input state. -/
theorem c7_error_aborts_whole_call (st : FulfillState) (slot oracle_price : Nat)
    (fs : FeeStructure) (e : ErrorCode)
    (herr : fulfill_order st slot oracle_price fs = .error e) :
    apply_fulfill st slot oracle_price fs = st := by
  unfold apply_fulfill
  rw [herr]

/-- Claim C7 witness: a call whose maker match is fine but whose backstop
leg breaches the reserve bound aborts mid-pipeline and leaves the taker,
maker and market records exactly as they were. -/
theorem c7_error_aborts_whole_call_witness :
    apply_fulfill c7_state 0 (100 * PRICE_PRECISION) test_fee_structure = c7_state :=
  c7_error_aborts_whole_call c7_state 0 (100 * PRICE_PRECISION) test_fee_structure
    .LiquidityExhausted (by rfl)

/-- Claim C9: settle_pnl accepts an oracle price from a slot different
from the last AMM update slot only when the curve-update intensity is
zero: if the oracle map slot differs from the AMM last_update_slot (or
the last oracle reading is not valid) while curve_update_intensity is
nonzero, the call fails with AMMNotUpdatedInSameSlot and no balance is
changed. -/
theorem c9_stale_amm_rejected (user : PnlUser) (authority : Nat) (market : PnlMarket)
    (env : SettlePnlEnv)
    (hb : user.bankrupt = false)
    (hm : env.meets_maintenance_margin = true)
    (hstale : env.oracle_map_slot ≠ market.amm_last_update_slot ∨
              market.amm_last_oracle_valid = false)
    (hci : market.curve_update_intensity ≠ 0) :
    settle_pnl user authority market env = .error .AMMNotUpdatedInSameSlot ∧
    apply_settle_pnl user authority market env = user := by
  have hcond : ¬ ((env.oracle_map_slot = market.amm_last_update_slot ∧
      market.amm_last_oracle_valid = true) ∨ market.curve_update_intensity = 0) := by
    rintro (⟨he, hv⟩ | hz)
    · rcases hstale with h | h
      · exact h he
      · rw [hv] at h; exact absurd h (by decide)
    · exact hci hz
  have h : settle_pnl user authority market env = .error .AMMNotUpdatedInSameSlot := by
    unfold settle_pnl
    simp [hb, hm, hcond]
  exact ⟨h, by unfold apply_settle_pnl; rw [h]⟩

/-- Claim C9 witness: a concrete call with oracle map slot 5 against AMM
last update slot 4 and curve-update intensity 1 fails with
AMMNotUpdatedInSameSlot and changes nothing. -/
theorem c9_stale_amm_rejected_witness :
    settle_pnl c9_user 7 c9_market c9_env = .error .AMMNotUpdatedInSameSlot ∧
    apply_settle_pnl c9_user 7 c9_market c9_env = c9_user :=
  c9_stale_amm_rejected c9_user 7 c9_market c9_env (by rfl) (by rfl)
    (Or.inl (by decide)) (by decide)

/-- Claim C10: positive unsettled pnl can only be settled by the position
owner: with a strictly positive pool-capped settlement amount and an
authority key that differs from the recorded one, settle_pnl returns
UserMustSettleTheirOwnPositiveUnsettledPNL and updates nothing, while a
negative settlement amount is permitted for any caller. -/
theorem c10_owner_only_positive_settlement (user : PnlUser) (authority : Nat)
    (market : PnlMarket) (env : SettlePnlEnv)
    (hb : user.bankrupt = false)
    (hm : env.meets_maintenance_margin = true)
    (hfresh : (env.oracle_map_slot = market.amm_last_update_slot ∧
               market.amm_last_oracle_valid = true) ∨ market.curve_update_intensity = 0)
    (hst : market.status = MarketStatus.Initialized)
    (hu : env.user_unsettled_pnl ≠ 0) :
    (0 < env.update_pool_balances_result env.user_unsettled_pnl →
      user.authority ≠ authority →
      settle_pnl user authority market env =
        .error .UserMustSettleTheirOwnPositiveUnsettledPNL ∧
      apply_settle_pnl user authority market env = user) ∧
    (env.update_pool_balances_result env.user_unsettled_pnl < 0 →
      pnl_res_is_ok (settle_pnl user authority market env) = true) := by
  constructor
  · intro hpos hauth
    have h : settle_pnl user authority market env =
        .error .UserMustSettleTheirOwnPositiveUnsettledPNL := by
      unfold settle_pnl
      simp only [hb, hm, hst]
      simp [hfresh, hu, hauth, hpos, Int.ne_of_gt hpos, not_lt.mpr (le_of_lt hpos)]
    exact ⟨h, by unfold apply_settle_pnl; rw [h]⟩
  · intro hneg
    unfold settle_pnl
    simp only [hb, hm, hst]
    simp [hfresh, hu, hneg, Int.ne_of_lt hneg, pnl_res_is_ok]

/-- Claim C1: a taker order whose direction would increase the magnitude
of the AMM net_base_asset_amount receives exactly zero AMM JIT quantity,
for every value of amm_jit_intensity; its fill is only the matched maker
quantity plus, once the auction is complete, the ordinary backstop fill
(no backstop quantity while the auction is incomplete). -/
theorem c1_no_jit_when_imbalance_worsens (st : FulfillState) (slot oracle_price : Nat)
    (fs : FeeStructure)
    (hdir : (st.taker_order.direction = .Long ∧ 0 ≤ st.amm.net_base_asset_amount) ∨
            (st.taker_order.direction = .Short ∧ st.amm.net_base_asset_amount ≤ 0)) :
    res_jit_filled (fulfill_order st slot oracle_price fs) = 0 ∧
    res_total_filled (fulfill_order st slot oracle_price fs) =
      res_maker_filled (fulfill_order st slot oracle_price fs) +
        res_backstop_filled (fulfill_order st slot oracle_price fs) ∧
    (is_auction_complete st.taker_order.slot st.taker_order.auction_duration slot = false →
      res_backstop_filled (fulfill_order st slot oracle_price fs) = 0) := by
  have hgate : amm_wants_to_make st.taker_order.direction st.amm.net_base_asset_amount = false := by
    rcases hdir with ⟨hd, hn⟩ | ⟨hd, hn⟩ <;> rw [hd] <;> simp [amm_wants_to_make] <;> omega
  rcases hres : fulfill_order st slot oracle_price fs with e | o
  · simp [res_jit_filled, res_total_filled, res_maker_filled, res_backstop_filled, hres]
  · simp only [res_jit_filled, res_total_filled, res_maker_filled, res_backstop_filled, hres]
    unfold fulfill_order at hres
    simp only [hgate, Bool.false_eq_true, if_false] at hres
    split at hres
    · exact absurd hres (by simp)
    · split at hres
      · exact absurd hres (by simp)
      · split at hres
        · exact absurd hres (by simp)
        · injection hres with h2
          subst h2
          refine ⟨rfl, by simp, ?_⟩
          intro hcomp
          simp [hcomp]

/-- Claim C1 witness: in the reference worsening scenario (users net
long, taker Long), the JIT contribution is zero and the whole fill is
maker quantity plus backstop. -/
theorem c1_no_jit_when_imbalance_worsens_witness :
    res_jit_filled (fulfill_order c1_state 0 (100 * PRICE_PRECISION) test_fee_structure) = 0 ∧
    res_total_filled (fulfill_order c1_state 0 (100 * PRICE_PRECISION) test_fee_structure) =
      res_maker_filled (fulfill_order c1_state 0 (100 * PRICE_PRECISION) test_fee_structure) +
        res_backstop_filled (fulfill_order c1_state 0 (100 * PRICE_PRECISION) test_fee_structure) ∧
    (is_auction_complete c1_state.taker_order.slot c1_state.taker_order.auction_duration 0 = false →
      res_backstop_filled (fulfill_order c1_state 0 (100 * PRICE_PRECISION) test_fee_structure) = 0) :=
  c1_no_jit_when_imbalance_worsens c1_state 0 (100 * PRICE_PRECISION) test_fee_structure
    (Or.inl ⟨by rfl, by decide⟩)

/-- Claim C2 counterexample: after a concrete reference call starting
from zeroed counters, total_fee does not equal total_exchange_fee plus
total_mm_fee: the maker-leg net fee enters total_fee only and the filler
rewards are deducted from total_fee only, the same decomposition that
reproduces the counters asserted by amm_jit_tests.rs (for example 713847
against 36141 + 677570 = 713711). -/
theorem c2_counterexample_fee_identity :
    res_is_ok (fulfill_order c2_state 0 (100 * PRICE_PRECISION) test_fee_structure) = true ∧
    (apply_fulfill c2_state 0 (100 * PRICE_PRECISION) test_fee_structure).amm.total_fee ≠
      (apply_fulfill c2_state 0 (100 * PRICE_PRECISION) test_fee_structure).amm.total_exchange_fee +
        (apply_fulfill c2_state 0 (100 * PRICE_PRECISION) test_fee_structure).amm.total_mm_fee := by
  refine ⟨by rfl, by decide⟩

/-- Claim C2 as amended: after every fulfillment call the change of
total_fee equals the change of total_exchange_fee plus the change of
total_mm_fee plus the maker-leg taker fee net of the maker rebate minus
the filler rewards - so the plain two-term identity fails whenever a
maker leg or a filler reward is present; total_fee_minus_distributions
and net_revenue_since_last_funding move exactly with total_fee; and a
maker that started with a zero position and zero accumulated rebate
satisfies quote_entry_amount plus fee rebate equals quote_asset_amount. -/
theorem c2_fee_accounting_decomposition (st : FulfillState) (slot oracle_price : Nat)
    (fs : FeeStructure) :
    ((apply_fulfill st slot oracle_price fs).amm.total_fee - st.amm.total_fee =
      ((apply_fulfill st slot oracle_price fs).amm.total_exchange_fee -
          st.amm.total_exchange_fee) +
        ((apply_fulfill st slot oracle_price fs).amm.total_mm_fee - st.amm.total_mm_fee) +
        ((res_maker_leg_fee (fulfill_order st slot oracle_price fs) : Int) -
          (res_maker_leg_rebate (fulfill_order st slot oracle_price fs) : Int) -
          (res_filler_reward (fulfill_order st slot oracle_price fs) : Int))) ∧
    ((apply_fulfill st slot oracle_price fs).amm.total_fee_minus_distributions -
        st.amm.total_fee_minus_distributions =
      (apply_fulfill st slot oracle_price fs).amm.total_fee - st.amm.total_fee) ∧
    ((apply_fulfill st slot oracle_price fs).amm.net_revenue_since_last_funding -
        st.amm.net_revenue_since_last_funding =
      (apply_fulfill st slot oracle_price fs).amm.total_fee - st.amm.total_fee) ∧
    (st.maker_pos.base_asset_amount = 0 ∧ st.maker_pos.quote_asset_amount = 0 ∧
        st.maker_pos.quote_entry_amount = 0 ∧ st.maker_rebate_total = 0 →
      (apply_fulfill st slot oracle_price fs).maker_pos.quote_entry_amount +
          (apply_fulfill st slot oracle_price fs).maker_rebate_total =
        (apply_fulfill st slot oracle_price fs).maker_pos.quote_asset_amount) := by
  rcases hres : fulfill_order st slot oracle_price fs with e | o
  · unfold apply_fulfill
    rw [hres]
    refine ⟨by simp [res_maker_leg_fee, res_maker_leg_rebate, res_filler_reward, hres],
      by simp, by simp, ?_⟩
    rintro ⟨h1, h2, h3, h4⟩
    rw [h2, h3, h4]
    rfl
  · unfold apply_fulfill
    rw [hres]
    simp only [res_maker_leg_fee, res_maker_leg_rebate, res_filler_reward, hres]
    unfold fulfill_order at hres
    simp only [] at hres
    split at hres
    · exact absurd hres (by simp)
    · split at hres
      · exact absurd hres (by simp)
      · split at hres
        · exact absurd hres (by simp)
        · injection hres with h2
          subst h2
          refine ⟨?_, ?_, ?_, ?_⟩
          · simp only
            push_cast
            ring
          · simp only
            ring
          · simp only
            ring
          · rintro ⟨h1, h2, h3, h4⟩
            simp only
            rw [(finalize_maker_quote_fields _ _ _).1, (finalize_maker_quote_fields _ _ _).2, h4]
            unfold apply_maker_fill
            cases st.taker_order.direction <;> simp [h2, h3]

/-- Claim C2 witness for the amended statement: the decomposition and the
maker identity at a concrete reference call with zeroed counters and a
fresh maker. -/
theorem c2_fee_accounting_decomposition_witness :
    ((apply_fulfill c2_state 0 (100 * PRICE_PRECISION) test_fee_structure).amm.total_fee -
        c2_state.amm.total_fee =
      ((apply_fulfill c2_state 0 (100 * PRICE_PRECISION) test_fee_structure).amm.total_exchange_fee -
          c2_state.amm.total_exchange_fee) +
        ((apply_fulfill c2_state 0 (100 * PRICE_PRECISION) test_fee_structure).amm.total_mm_fee -
          c2_state.amm.total_mm_fee) +
        ((res_maker_leg_fee (fulfill_order c2_state 0 (100 * PRICE_PRECISION) test_fee_structure) : Int) -
          (res_maker_leg_rebate (fulfill_order c2_state 0 (100 * PRICE_PRECISION) test_fee_structure) : Int) -
          (res_filler_reward (fulfill_order c2_state 0 (100 * PRICE_PRECISION) test_fee_structure) : Int))) ∧
    ((apply_fulfill c2_state 0 (100 * PRICE_PRECISION) test_fee_structure).maker_pos.quote_entry_amount +
        (apply_fulfill c2_state 0 (100 * PRICE_PRECISION) test_fee_structure).maker_rebate_total =
      (apply_fulfill c2_state 0 (100 * PRICE_PRECISION) test_fee_structure).maker_pos.quote_asset_amount) :=
  have h := c2_fee_accounting_decomposition c2_state 0 (100 * PRICE_PRECISION) test_fee_structure
  ⟨h.1, h.2.2.2 ⟨by rfl, by rfl, by rfl, by rfl⟩⟩

/-- Claim C8: once the taker order processed by fulfill_order has zero
remaining base quantity after the call, the order record has been reset to
the default closed state, the open-order count has been decremented, and
the reserved open-bid (for a Long) or open-ask (for a Short) quantity has
been released by the filled amount. -/
theorem c8_filled_order_is_reset (st : FulfillState) (slot oracle_price : Nat)
    (fs : FeeStructure)
    (hok : res_is_ok (fulfill_order st slot oracle_price fs) = true)
    (hrem : (apply_fulfill st slot oracle_price fs).taker_order.base_asset_amount -
        (apply_fulfill st slot oracle_price fs).taker_order.base_asset_amount_filled = 0) :
    (apply_fulfill st slot oracle_price fs).taker_order = Order.default ∧
    (apply_fulfill st slot oracle_price fs).taker.open_orders = st.taker.open_orders - 1 ∧
    (st.taker_order.direction = .Long →
      (apply_fulfill st slot oracle_price fs).taker.open_bids =
        st.taker.open_bids - res_total_filled (fulfill_order st slot oracle_price fs)) ∧
    (st.taker_order.direction = .Short →
      (apply_fulfill st slot oracle_price fs).taker.open_asks =
        st.taker.open_asks + res_total_filled (fulfill_order st slot oracle_price fs)) := by
  rcases hres : fulfill_order st slot oracle_price fs with e | o
  · rw [hres] at hok
    exact absurd hok (by simp [res_is_ok])
  · simp only [apply_fulfill, hres] at hrem ⊢
    simp only [res_total_filled, hres]
    unfold fulfill_order at hres
    simp only [] at hres
    split at hres
    · exact absurd hres (by simp)
    · split at hres
      · exact absurd hres (by simp)
      · split at hres
        · exact absurd hres (by simp)
        · injection hres with h2
          subst h2
          simp only [] at hrem ⊢
          obtain ⟨ho, hoo, hob, hoa⟩ := finalize_taker_of_remaining_zero _ _ _ hrem
          refine ⟨ho, ?_, ?_, ?_⟩
          · rw [hoo]
            simp [apply_taker_fill_open_orders]
          · intro hdir
            rw [hob]
            simp only [hdir, apply_taker_fill_long_open_bids]
            push_cast
            ring
          · intro hdir
            rw [hoa]
            simp only [hdir, apply_taker_fill_short_open_asks]
            push_cast
            ring

/-- Claim C8 witness: a concrete maker-only full fill resets the taker
order to the default record, decrements the open-order count and releases
the reserved bids. -/
theorem c8_filled_order_is_reset_witness :
    (apply_fulfill c8_state 0 (100 * PRICE_PRECISION) test_fee_structure).taker_order = Order.default ∧
    (apply_fulfill c8_state 0 (100 * PRICE_PRECISION) test_fee_structure).taker.open_orders =
      c8_state.taker.open_orders - 1 ∧
    (c8_state.taker_order.direction = .Long →
      (apply_fulfill c8_state 0 (100 * PRICE_PRECISION) test_fee_structure).taker.open_bids =
        c8_state.taker.open_bids -
          res_total_filled (fulfill_order c8_state 0 (100 * PRICE_PRECISION) test_fee_structure)) ∧
    (c8_state.taker_order.direction = .Short →
      (apply_fulfill c8_state 0 (100 * PRICE_PRECISION) test_fee_structure).taker.open_asks =
        c8_state.taker.open_asks +
          res_total_filled (fulfill_order c8_state 0 (100 * PRICE_PRECISION) test_fee_structure)) :=
  c8_filled_order_is_reset c8_state 0 (100 * PRICE_PRECISION) test_fee_structure
    (by rfl) (by rfl)

theorem quote_asset_amount_at_lt (p1 p2 q : Nat)
    (h : p1 * q + BASE_PRECISION ≤ p2 * q) :
    quote_asset_amount_at p1 q < quote_asset_amount_at p2 q := by
  unfold quote_asset_amount_at
  have h2 : (p1 * q + BASE_PRECISION) / BASE_PRECISION ≤ p2 * q / BASE_PRECISION :=
    Nat.div_le_div_right h
  rw [Nat.add_div_right _ (show 0 < BASE_PRECISION by unfold BASE_PRECISION; norm_num)] at h2
  omega

/-- Characterization of a successful fulfillment call: the surplus of the
outcome is exactly what the call adds to total_mm_fee, the net base
inventory moves by the AMM-absorbed quantity in the taker direction, and
a call with no backstop leg records precisely the JIT surplus at the
current auction price against the oracle reference. -/
theorem fulfill_order_ok_spec (st : FulfillState) (slot oracle_price : Nat)
    (fs : FeeStructure) (o : FillOutcome)
    (hres : fulfill_order st slot oracle_price fs = .ok o) :
    o.state.amm.total_mm_fee = st.amm.total_mm_fee + o.surplus_total ∧
    o.state.amm.net_base_asset_amount =
      net_after_amm_fill st.amm.net_base_asset_amount st.taker_order.direction
        (o.jit_filled + o.backstop_filled) ∧
    (o.backstop_filled = 0 →
      o.surplus_total = jit_surplus st.taker_order.direction
        (calculate_auction_price st.taker_order slot) o.jit_filled oracle_price) := by
  unfold fulfill_order at hres
  simp only [] at hres
  split at hres
  · exact absurd hres (by simp)
  · split at hres
    · exact absurd hres (by simp)
    · split at hres
      · exact absurd hres (by simp)
      · rename_i amm_b back_quote heq
        injection hres with h2
        subst h2
        refine ⟨rfl, rfl, ?_⟩
        intro hb
        simp only [] at hb
        rw [hb] at heq
        unfold swap_base_asset_opt at heq
        simp only [if_pos rfl] at heq
        injection heq with hpair
        injection hpair with ha hq0
        subst hq0
        simp only [hb]
        cases st.taker_order.direction <;>
          simp [jit_surplus, amm_quote_surplus, quote_asset_amount_at]

/-- Claim C3: across consecutive balance-improving JIT fills of the same
base quantity recorded by fulfill_order against the same AMM while the
taker auction price moves from its start toward its end (strictly, at the
granularity of one quote unit per fill quantity), the per-fill surplus
recorded into total_mm_fee is strictly increasing fill-over-fill, a
nonnegative recorded surplus is never followed by a nonpositive one (so
negative surplus occurs before positive), and the magnitude of the AMM
net_base_asset_amount strictly decreases after every fill. -/
theorem c3_recorded_surplus_monotone_and_imbalance_shrinks
    (st1 : FulfillState) (s1 s2 oracle_price q : Nat) (fs : FeeStructure)
    (mp : PerpPosition) (mo : Order) (o1 o2 : FillOutcome)
    (h1 : fulfill_order st1 s1 oracle_price fs = .ok o1)
    (h2 : fulfill_order (with_fresh_maker o1.state mp mo) s2 oracle_price fs = .ok o2)
    (hb1 : o1.backstop_filled = 0) (hb2 : o2.backstop_filled = 0)
    (hj1 : o1.jit_filled = q) (hj2 : o2.jit_filled = q) (hq : 0 < q)
    (hcase :
      (st1.taker_order.direction = .Long ∧ o1.state.taker_order.direction = .Long ∧
        st1.amm.net_base_asset_amount < 0 ∧
        3 * (q : Int) ≤ -st1.amm.net_base_asset_amount ∧
        calculate_auction_price st1.taker_order s1 * q + BASE_PRECISION ≤
          calculate_auction_price o1.state.taker_order s2 * q) ∨
      (st1.taker_order.direction = .Short ∧ o1.state.taker_order.direction = .Short ∧
        0 < st1.amm.net_base_asset_amount ∧
        3 * (q : Int) ≤ st1.amm.net_base_asset_amount ∧
        calculate_auction_price o1.state.taker_order s2 * q + BASE_PRECISION ≤
          calculate_auction_price st1.taker_order s1 * q)) :
    o1.state.amm.total_mm_fee - st1.amm.total_mm_fee <
      o2.state.amm.total_mm_fee - o1.state.amm.total_mm_fee ∧
    o1.state.amm.net_base_asset_amount.natAbs < st1.amm.net_base_asset_amount.natAbs ∧
    o2.state.amm.net_base_asset_amount.natAbs < o1.state.amm.net_base_asset_amount.natAbs ∧
    (0 ≤ o1.state.amm.total_mm_fee - st1.amm.total_mm_fee →
      0 < o2.state.amm.total_mm_fee - o1.state.amm.total_mm_fee) := by
  obtain ⟨hm1, hn1, hs1⟩ := fulfill_order_ok_spec _ _ _ _ _ h1
  obtain ⟨hm2, hn2, hs2⟩ := fulfill_order_ok_spec _ _ _ _ _ h2
  have hs1e := hs1 hb1
  have hs2e := hs2 hb2
  rw [hj1] at hs1e hn1
  rw [hj2] at hs2e hn2
  rw [hb1] at hn1
  rw [hb2] at hn2
  simp only [with_fresh_maker] at hm2 hn2 hs2e
  rcases hcase with ⟨hd1, hd2, hn, h3q, hp⟩ | ⟨hd1, hd2, hn, h3q, hp⟩
  · rw [hd1] at hs1e hn1
    rw [hd2] at hs2e hn2
    have hqlt := quote_asset_amount_at_lt _ _ _ hp
    simp only [jit_surplus, amm_quote_surplus] at hs1e hs2e
    simp only [net_after_amm_fill] at hn1 hn2
    refine ⟨?_, ?_, ?_, ?_⟩ <;> omega
  · rw [hd1] at hs1e hn1
    rw [hd2] at hs2e hn2
    have hqlt := quote_asset_amount_at_lt _ _ _ hp
    simp only [jit_surplus, amm_quote_surplus] at hs1e hs2e
    simp only [net_after_amm_fill] at hn1 hn2
    refine ⟨?_, ?_, ?_, ?_⟩ <;> omega

/-- Claim C3 witness: two consecutive mid-auction JIT fills of 2000 base
units at slots 0 and 1 of the reference full-long auction, run through
fulfill_order itself. -/
theorem c3_recorded_surplus_monotone_and_imbalance_shrinks_witness :
    c3_o1.state.amm.total_mm_fee - c3_state1.amm.total_mm_fee <
      c3_o2.state.amm.total_mm_fee - c3_o1.state.amm.total_mm_fee ∧
    c3_o1.state.amm.net_base_asset_amount.natAbs <
      c3_state1.amm.net_base_asset_amount.natAbs ∧
    c3_o2.state.amm.net_base_asset_amount.natAbs <
      c3_o1.state.amm.net_base_asset_amount.natAbs ∧
    (0 ≤ c3_o1.state.amm.total_mm_fee - c3_state1.amm.total_mm_fee →
      0 < c3_o2.state.amm.total_mm_fee - c3_o1.state.amm.total_mm_fee) :=
  c3_recorded_surplus_monotone_and_imbalance_shrinks c3_state1 0 1
    (100 * PRICE_PRECISION) 2000 test_fee_structure c3_maker2_pos c3_maker2_ord
    c3_o1 c3_o2 (by rfl) (by rfl) (by rfl) (by rfl) (by rfl) (by rfl) (by decide)
    (Or.inl ⟨by rfl, by rfl, by decide, by decide, by decide⟩)

/-- Claim C4 counterexample: in the stated scenario (net inventory minus
half a unit, taker Long one unit, post-only Short maker of half a unit at
100, step size permitting full absorption) the call succeeds but the net
base inventory does not net to 0 and the recorded surplus is not 677570:
the JIT carve-out halves the maker fill, leaving net at plus a quarter
unit. -/
theorem c4_counterexample_net_not_zero :
    res_is_ok c4_result = true ∧ res_net c4_result ≠ 0 ∧
    res_surplus c4_result ≠ 677570 := by
  refine ⟨by rfl, by decide, by decide⟩

/-- Claim C4 as amended: in that scenario the AMM takes half of the
maker-matched quantity as JIT (maker fills a quarter unit, JIT a quarter
unit) and absorbs the post-match remainder of half a unit as backstop, the
net base inventory moves from minus half to plus a quarter unit, and the
market books a strictly positive surplus. -/
theorem c4_amended_behaviour :
    res_is_ok c4_result = true ∧
    res_maker_filled c4_result = 250000000 ∧
    res_jit_filled c4_result = 250000000 ∧
    res_backstop_filled c4_result = 500000000 ∧
    res_total_filled c4_result = 1000000000 ∧
    res_net c4_result = 250000000 ∧
    0 < res_surplus c4_result := by
  refine ⟨by rfl, by rfl, by rfl, by rfl, by rfl, by rfl, by decide⟩

/-- Claim C5 counterexample: in the stated worsening scenario the fill
succeeds with zero JIT participation, yet the AMM surplus recorded by the
call is not zero - the auction-complete backstop fill against the spread
curve books a positive surplus. -/
theorem c5_counterexample_surplus_not_zero :
    res_is_ok c5_result = true ∧ res_jit_filled c5_result = 0 ∧
    res_surplus c5_result ≠ 0 := by
  refine ⟨by rfl, by rfl, by decide⟩

/-- Claim C5 as amended: the scenario fills one unit in total, the taker
position becomes plus one unit, the maker position minus half a unit with
quote entry amount 50 (scaled) and fee rebate 15000 (scaled), the net base
inventory becomes plus one unit with no JIT participation, and the
backstop sub-fill books a strictly positive AMM surplus (not zero). -/
theorem c5_amended_behaviour :
    res_total_filled c5_result = 1000000000 ∧
    res_taker_base c5_result = 1000000000 ∧
    res_maker_base c5_result = -500000000 ∧
    res_maker_qea c5_result = 50000000 ∧
    res_maker_rebate c5_result = 15000 ∧
    res_jit_filled c5_result = 0 ∧
    res_net c5_result = 1000000000 ∧
    0 < res_surplus c5_result := by
  refine ⟨by rfl, by rfl, by rfl, by rfl, by rfl, by rfl, by rfl, by decide⟩

/-- Claim C10 witness: a concrete positive settlement of 7 requested by
authority 2 against recorded authority 1 is rejected with
UserMustSettleTheirOwnPositiveUnsettledPNL and changes nothing. -/
theorem c10_owner_only_positive_settlement_witness :
    settle_pnl c10_user 2 c10_market c10_env =
      .error .UserMustSettleTheirOwnPositiveUnsettledPNL ∧
    apply_settle_pnl c10_user 2 c10_market c10_env = c10_user :=
  (c10_owner_only_positive_settlement c10_user 2 c10_market c10_env (by rfl) (by rfl)
    (Or.inl (by decide)) (by rfl) (by decide)).1 (by decide) (by decide)

end Drift
